import Mathlib

/-!
Verification of `tools/gen_texture.py`, a white-noise PNG generator.

The script draws a base grayscale random field of shape (height, width),
stacks it across three RGB channels, adds an independent secondary noise
draw to every channel of every pixel, clips the result to [0, 255], casts
to uint8 and wraps the buffer in a PIL image which `main` saves as a PNG.

Randomness is modelled by passing the two arrays drawn from the numpy rng
as explicit inputs: `base` stands for `rng.integers(low=0, high=256,
size=(height, width))` and `noise` for `rng.integers(low=-CHANNEL_NOISE,
high=CHANNEL_NOISE, size=(height, width, 3))`.  numpy's `integers` draws
from the half-open range [low, high), which the validity predicates below
record.  File-system effects of `Image.save` are modelled by an abstract
disk (a map from path to file content) together with an oracle telling
whether the image library accepts the path.
-/

namespace GenTexture

/-- `IMAGE_WIDTH` constant of the script. -/
def IMAGE_WIDTH : Nat := 128

/-- `IMAGE_HEIGHT` constant of the script. -/
def IMAGE_HEIGHT : Nat := 128

/-- `IMAGE_MODE` constant of the script. -/
def IMAGE_MODE : String := "RGB"

/-- `CHANNEL_NOISE` constant inside `generate_white_noise`. -/
def CHANNEL_NOISE : Int := 24

/-- Validity of the base draw: `rng.integers(low=0, high=256)` yields
values in the half-open range [0, 256). -/
def base_noise_valid (base : Nat → Nat → Int) : Prop :=
  ∀ y x : Nat, 0 ≤ base y x ∧ base y x < 256

/-- Validity of the secondary draw: `rng.integers(low=-24, high=24)`
yields values in the half-open range [-24, 24). -/
def channel_noise_valid (noise : Nat → Nat → Nat → Int) : Prop :=
  ∀ y x c : Nat, -CHANNEL_NOISE ≤ noise y x c ∧ noise y x c < CHANNEL_NOISE

/-- Entry of `np.stack([base_noise, base_noise, base_noise], axis=2)`:
every channel of pixel (y, x) carries the same base value. -/
def np_stack3 (base : Nat → Nat → Int) : Nat → Nat → Nat → Int :=
  fun y x _c => base y x

/-- `np.clip(v, lo, hi)` on integers. -/
def np_clip (v lo hi : Int) : Int := max lo (min v hi)

/-- `astype(np.uint8)`: reduction modulo 256 into [0, 255]. -/
def astype_uint8 (v : Int) : Int := v % 256

/-- Entry (y, x, c) of the final buffer
`np.clip(img_array + channel_noise, 0, 255).astype(np.uint8)`. -/
def img_array_entry (base : Nat → Nat → Int) (noise : Nat → Nat → Nat → Int)
    (y x c : Nat) : Int :=
  astype_uint8 (np_clip (np_stack3 base y x c + noise y x c) 0 255)

/-- Materialize an entry function into a nested list of shape
(height, width, depth), the row-major layout of the numpy array. -/
def materialize (height width depth : Nat) (f : Nat → Nat → Nat → Int) :
    List (List (List Int)) :=
  (List.range height).map fun y =>
    (List.range width).map fun x =>
      (List.range depth).map fun c => f y x c

/-- A PIL image: a mode string together with the pixel buffer and its
dimensions. -/
structure PILImage where
  mode : String
  width : Nat
  height : Nat
  pixels : List (List (List Int))
  deriving Repr, DecidableEq

/-- `generate_white_noise(width, height)`: draw the base field, stack it
across three channels, add the secondary noise, clip to [0, 255], cast to
uint8 and wrap the buffer via `Image.fromarray(img_array, mode='RGB')`. -/
def generate_white_noise (width height : Nat)
    (base : Nat → Nat → Int) (noise : Nat → Nat → Nat → Int) : PILImage :=
  { mode := IMAGE_MODE
    width := width
    height := height
    pixels := materialize height width 3 (img_array_entry base noise) }

/-- A file written by `Image.save`: the encoding format used, the color
mode and the pixel data that were encoded. -/
structure EncodedFile where
  format : String
  mode : String
  pixels : List (List (List Int))
  deriving Repr, DecidableEq

/-- Failure modes of the image library's save call. -/
inductive SaveError where
  | invalidPath
  | unsupportedFormat
  deriving Repr, DecidableEq

/-- A disk: map from path to file content. -/
def Disk : Type := String → Option EncodedFile

/-- `image.save(path, format=fmt)`.  Whether the underlying image library
accepts the path is an oracle `saveCheck`; the program itself performs no
validation.  On success exactly the named path is overwritten. -/
def image_save (img : PILImage) (path fmt : String)
    (saveCheck : String → Option SaveError) (disk : Disk) :
    Except SaveError Disk :=
  match saveCheck path with
  | some e => .error e
  | none => .ok (Function.update disk path (some ⟨fmt, img.mode, img.pixels⟩))

/-- Failure modes of a whole run: `argparse` rejecting the command line,
or the library's save call failing. -/
inductive MainError where
  | usage (msg : String)
  | save (e : SaveError)
  deriving Repr, DecidableEq

/-- Argument parsing: the parser declares exactly one positional argument
`output`, so `argparse` accepts exactly the command lines made of one
positional argument and errors out otherwise. -/
def parse_args (argv : List String) : Except String String :=
  match argv with
  | [output] => .ok output
  | _ => .error "expected exactly one argument: output"

/-- `main()`: parse the single output path, generate the fixed-size
white-noise image, save it as PNG.  Returns the generated image and the
resulting disk, or the error that stopped the run. -/
def main (argv : List String)
    (base : Nat → Nat → Int) (noise : Nat → Nat → Nat → Int)
    (saveCheck : String → Option SaveError) (disk : Disk) :
    Except MainError (PILImage × Disk) :=
  match parse_args argv with
  | .error m => .error (.usage m)
  | .ok output =>
    let image := generate_white_noise IMAGE_WIDTH IMAGE_HEIGHT base noise
    match image_save image output "PNG" saveCheck disk with
    | .error e => .error (.save e)
    | .ok disk2 => .ok (image, disk2)

/-- Pipeline written from the spec's five steps: (a) a base grayscale
field of shape (height, width), (b) replicated across three channels,
(c) an independently drawn secondary noise value added to each channel of
each pixel, (d) the result clamped to [0, 255], (e) encoded as an RGB
image. -/
def spec_pipeline (width height : Nat)
    (base : Nat → Nat → Int) (noise : Nat → Nat → Nat → Int) : PILImage :=
  { mode := "RGB"
    width := width
    height := height
    pixels :=
      (List.range height).map fun y =>
        (List.range width).map fun x =>
          (List.range 3).map fun c =>
            max 0 (min (base y x + noise y x c) 255) }

end GenTexture

namespace GenTexture

/-! ### Helper lemmas -/

/-- Every entry of the final buffer lies in [0, 255]. -/
theorem img_array_entry_bounds (base : Nat → Nat → Int)
    (noise : Nat → Nat → Nat → Int) (y x c : Nat) :
    0 ≤ img_array_entry base noise y x c ∧ img_array_entry base noise y x c ≤ 255 := by
  unfold img_array_entry astype_uint8 np_clip np_stack3
  omega

/-- The uint8 cast is the identity on the clipped value, because clipping
already lands in [0, 255]. -/
theorem img_array_entry_eq_clip (base : Nat → Nat → Int)
    (noise : Nat → Nat → Nat → Int) (y x c : Nat) :
    img_array_entry base noise y x c =
      max 0 (min (base y x + noise y x c) 255) := by
  unfold img_array_entry astype_uint8 np_clip np_stack3
  omega

end GenTexture

namespace GenTexture

/-- The image the script builds is exactly the spec's five-step pipeline. -/
theorem generate_eq_spec_pipeline (width height : Nat)
    (base : Nat → Nat → Int) (noise : Nat → Nat → Nat → Int) :
    generate_white_noise width height base noise =
      spec_pipeline width height base noise := by
  have hf : img_array_entry base noise =
      fun y x c => max 0 (min (base y x + noise y x c) 255) := by
    funext y x c
    exact img_array_entry_eq_clip base noise y x c
  unfold generate_white_noise spec_pipeline materialize IMAGE_MODE
  rw [hf]

/-- C1: generate_white_noise follows the spec's five-step algorithm: with
the random draws as explicit inputs, the returned image equals exactly
the composition (a) base grayscale field, (b) replicated across three
channels, (c) plus an independent secondary noise value per channel,
(d) clamped to [0, 255], (e) wrapped as an RGB image; and a successful
run of main writes exactly that image to the output path encoded as a
PNG. -/
theorem c1_generate_follows_five_steps (width height : Nat)
    (base : Nat → Nat → Int) (noise : Nat → Nat → Nat → Int)
    (p : String) (saveCheck : String → Option SaveError) (disk : Disk)
    (hok : saveCheck p = none) :
    generate_white_noise width height base noise =
      spec_pipeline width height base noise
    ∧ main [p] base noise saveCheck disk =
        .ok (spec_pipeline IMAGE_WIDTH IMAGE_HEIGHT base noise,
          Function.update disk p
            (some ⟨"PNG", "RGB",
              (spec_pipeline IMAGE_WIDTH IMAGE_HEIGHT base noise).pixels⟩)) := by
  refine ⟨generate_eq_spec_pipeline width height base noise, ?_⟩
  simp only [main, parse_args, image_save, hok,
    generate_eq_spec_pipeline, spec_pipeline]

/-- Witness for C1 at a concrete run. -/
theorem c1_witness :
    ((fun _ : String => (none : Option SaveError)) "out.png" = none)
    ∧ (generate_white_noise 2 2 (fun _ _ => 7) (fun _ _ _ => 0) =
        spec_pipeline 2 2 (fun _ _ => 7) (fun _ _ _ => 0)
      ∧ main ["out.png"] (fun _ _ => 7) (fun _ _ _ => 0)
          (fun _ => none) (fun _ => none) =
        .ok (spec_pipeline IMAGE_WIDTH IMAGE_HEIGHT
              (fun _ _ => 7) (fun _ _ _ => 0),
          Function.update (fun _ => none) "out.png"
            (some ⟨"PNG", "RGB",
              (spec_pipeline IMAGE_WIDTH IMAGE_HEIGHT
                (fun _ _ => 7) (fun _ _ _ => 0)).pixels⟩))) :=
  ⟨rfl, c1_generate_follows_five_steps 2 2 (fun _ _ => 7) (fun _ _ _ => 0)
    "out.png" (fun _ => none) (fun _ => none) rfl⟩

/-- C2: the pixel buffer has shape (height, width, 3) and every element
of the final (post-clip) buffer is an integer in [0, 255], for every run,
with no assumption on the random draws. -/
theorem c2_buffer_shape_and_range (width height : Nat)
    (base : Nat → Nat → Int) (noise : Nat → Nat → Nat → Int) :
    (generate_white_noise width height base noise).pixels.length = height
    ∧ (∀ row ∈ (generate_white_noise width height base noise).pixels,
        row.length = width)
    ∧ (∀ row ∈ (generate_white_noise width height base noise).pixels,
        ∀ px ∈ row, px.length = 3)
    ∧ (∀ row ∈ (generate_white_noise width height base noise).pixels,
        ∀ px ∈ row, ∀ v ∈ px, 0 ≤ v ∧ v ≤ 255) := by
  refine ⟨?_, ?_, ?_, ?_⟩
  · simp [generate_white_noise, materialize]
  · intro row hrow
    simp only [generate_white_noise, materialize, List.mem_map,
      List.mem_range] at hrow
    obtain ⟨y, hy, rfl⟩ := hrow
    simp
  · intro row hrow px hpx
    simp only [generate_white_noise, materialize, List.mem_map,
      List.mem_range] at hrow
    obtain ⟨y, hy, rfl⟩ := hrow
    simp only [List.mem_map, List.mem_range] at hpx
    obtain ⟨x, hx, rfl⟩ := hpx
    simp
  · intro row hrow px hpx v hv
    simp only [generate_white_noise, materialize, List.mem_map,
      List.mem_range] at hrow
    obtain ⟨y, hy, rfl⟩ := hrow
    simp only [List.mem_map, List.mem_range] at hpx
    obtain ⟨x, hx, rfl⟩ := hpx
    simp only [List.mem_map, List.mem_range] at hv
    obtain ⟨c, hc, rfl⟩ := hv
    exact img_array_entry_bounds base noise y x c

/-- Witness for C2 at a concrete run (base value 300 exercises the clip). -/
theorem c2_witness :
    ([([255, 255, 255] : List Int)] ∈
        (generate_white_noise 1 1 (fun _ _ => 300) (fun _ _ _ => 0)).pixels)
    ∧ (([255, 255, 255] : List Int) ∈ [([255, 255, 255] : List Int)])
    ∧ ((255 : Int) ∈ ([255, 255, 255] : List Int))
    ∧ (0 ≤ (255 : Int) ∧ (255 : Int) ≤ 255) :=
  ⟨by decide, by decide, by decide,
    (c2_buffer_shape_and_range 1 1 (fun _ _ => 300) (fun _ _ _ => 0)).2.2.2
      [[255, 255, 255]] (by decide) [255, 255, 255] (by decide)
      255 (by decide)⟩

/-- The property C3 claims: each channel value of each pixel depends only
on its own independent draw, i.e. the value at (y, x, c) is a function of
the secondary draw at (y, x, c) alone and of no draw shared with any
other pixel or channel. -/
def channels_drawn_independently : Prop :=
  ∀ (base base' : Nat → Nat → Int) (noise noise' : Nat → Nat → Nat → Int)
    (y x c : Nat), noise y x c = noise' y x c →
    img_array_entry base noise y x c = img_array_entry base' noise' y x c

/-- C3 counterexample: the claimed independence fails, because the three
channels of a pixel share the base draw: changing only the base draw at
pixel (0, 0), with every per-channel secondary draw held fixed at 0,
moves channel (0, 0, 0) from 0 to 200. -/
theorem c3_counterexample : ¬ channels_drawn_independently := by
  intro h
  have h0 := h (fun _ _ => 0) (fun _ _ => 200) (fun _ _ _ => 0)
    (fun _ _ _ => 0) 0 0 0 rfl
  exact absurd h0 (by decide)

/-- C3 amended: the channel value at (y, x, c) depends only on the base
draw at (y, x) and the secondary draw at (y, x, c); in particular values
at distinct pixels depend on disjoint draws (no spatial correlation), but
the three channels of one pixel share the base draw. -/
theorem c3_channel_depends_on_own_pixel_draws
    (base base' : Nat → Nat → Int) (noise noise' : Nat → Nat → Nat → Int)
    (y x c : Nat) (hb : base y x = base' y x)
    (hn : noise y x c = noise' y x c) :
    img_array_entry base noise y x c = img_array_entry base' noise' y x c := by
  unfold img_array_entry np_stack3
  rw [hb, hn]

/-- Witness for C3's amended theorem: two randomness assignments agreeing
at pixel (0, 0) yield the same channel value there. -/
theorem c3_witness :
    ((fun y (_ : Nat) => (y : Int)) 0 0 = (fun _ _ => (0 : Int)) 0 0)
    ∧ ((fun _ _ (_ : Nat) => (3 : Int)) 0 0 0 =
        (fun _ _ _ => (3 : Int)) 0 0 0)
    ∧ img_array_entry (fun y _ => (y : Int)) (fun _ _ _ => 3) 0 0 0 =
        img_array_entry (fun _ _ => 0) (fun _ _ _ => 3) 0 0 0 :=
  ⟨by decide, rfl,
    c3_channel_depends_on_own_pixel_draws (fun y _ => (y : Int))
      (fun _ _ => 0) (fun _ _ _ => 3) (fun _ _ _ => 3) 0 0 0
      (by decide) rfl⟩

end GenTexture

namespace GenTexture

/-- Inversion of a successful run: main succeeded exactly when the
command line was a single path the save oracle accepts, the image is the
fixed-size generated one, and the disk changed by one `Function.update`. -/
theorem main_ok_inv (argv : List String)
    (base : Nat → Nat → Int) (noise : Nat → Nat → Nat → Int)
    (saveCheck : String → Option SaveError) (disk : Disk)
    (img : PILImage) (disk2 : Disk)
    (h : main argv base noise saveCheck disk = .ok (img, disk2)) :
    ∃ p, argv = [p] ∧ saveCheck p = none
      ∧ img = generate_white_noise IMAGE_WIDTH IMAGE_HEIGHT base noise
      ∧ disk2 = Function.update disk p
          (some ⟨"PNG",
            (generate_white_noise IMAGE_WIDTH IMAGE_HEIGHT base noise).mode,
            (generate_white_noise IMAGE_WIDTH IMAGE_HEIGHT base noise).pixels⟩) := by
  match argv with
  | [] => simp [main, parse_args] at h
  | [p] =>
    refine ⟨p, rfl, ?_⟩
    cases hsc : saveCheck p with
    | some e => simp [main, parse_args, image_save, hsc] at h
    | none =>
      simp only [main, parse_args, image_save, hsc] at h
      simp only [Except.ok.injEq, Prod.mk.injEq] at h
      exact ⟨rfl, h.1.symm, h.2.symm⟩
  | a :: b :: t => simp [main, parse_args] at h

/-- C4: the image size is fixed: every successful run, whatever the
command line and the random draws, yields an image of width 128 and
height 128, both in the recorded dimensions and in the buffer shape. -/
theorem c4_fixed_dimensions (argv : List String)
    (base : Nat → Nat → Int) (noise : Nat → Nat → Nat → Int)
    (saveCheck : String → Option SaveError) (disk : Disk)
    (img : PILImage) (disk2 : Disk)
    (h : main argv base noise saveCheck disk = .ok (img, disk2)) :
    img.width = 128 ∧ img.height = 128 ∧ img.pixels.length = 128
    ∧ ∀ row ∈ img.pixels, row.length = 128 := by
  obtain ⟨p, -, -, rfl, -⟩ := main_ok_inv argv base noise saveCheck disk img disk2 h
  refine ⟨rfl, rfl, by simp [generate_white_noise, materialize, IMAGE_HEIGHT], ?_⟩
  intro row hrow
  simp only [generate_white_noise, materialize, List.mem_map,
    List.mem_range] at hrow
  obtain ⟨y, hy, rfl⟩ := hrow
  simp [IMAGE_WIDTH]

/-- Witness for C4 at a concrete run. -/
theorem c4_witness :
    (main ["a.txt"] (fun _ _ => 0) (fun _ _ _ => 0) (fun _ => none)
        (fun _ => none) =
      .ok (generate_white_noise IMAGE_WIDTH IMAGE_HEIGHT (fun _ _ => 0)
            (fun _ _ _ => 0),
        Function.update (fun _ => none) "a.txt"
          (some ⟨"PNG",
            (generate_white_noise IMAGE_WIDTH IMAGE_HEIGHT (fun _ _ => 0)
              (fun _ _ _ => 0)).mode,
            (generate_white_noise IMAGE_WIDTH IMAGE_HEIGHT (fun _ _ => 0)
              (fun _ _ _ => 0)).pixels⟩)))
    ∧ ((generate_white_noise IMAGE_WIDTH IMAGE_HEIGHT (fun _ _ => 0)
          (fun _ _ _ => 0)).width = 128
      ∧ (generate_white_noise IMAGE_WIDTH IMAGE_HEIGHT (fun _ _ => 0)
          (fun _ _ _ => 0)).height = 128
      ∧ (generate_white_noise IMAGE_WIDTH IMAGE_HEIGHT (fun _ _ => 0)
          (fun _ _ _ => 0)).pixels.length = 128
      ∧ ∀ row ∈ (generate_white_noise IMAGE_WIDTH IMAGE_HEIGHT
          (fun _ _ => 0) (fun _ _ _ => 0)).pixels, row.length = 128) :=
  ⟨rfl, c4_fixed_dimensions ["a.txt"] (fun _ _ => 0) (fun _ _ _ => 0)
    (fun _ => none) (fun _ => none) _ _ rfl⟩

/-- C5: every successful run writes the image to the named path encoded
as PNG, whatever the extension of the output path. -/
theorem c5_saved_as_png (p : String)
    (base : Nat → Nat → Int) (noise : Nat → Nat → Nat → Int)
    (saveCheck : String → Option SaveError) (disk : Disk)
    (img : PILImage) (disk2 : Disk)
    (h : main [p] base noise saveCheck disk = .ok (img, disk2)) :
    ∃ file, disk2 p = some file ∧ file.format = "PNG"
      ∧ file.pixels = img.pixels := by
  obtain ⟨q, hq, -, rfl, rfl⟩ := main_ok_inv [p] base noise saveCheck disk img disk2 h
  obtain rfl : p = q := by injection hq
  exact ⟨_, Function.update_same p _ disk, rfl, rfl⟩

/-- Witness for C5 at a concrete run whose output path has a non-PNG
extension. -/
theorem c5_witness :
    (main ["noise.jpg"] (fun _ _ => 0) (fun _ _ _ => 0) (fun _ => none)
        (fun _ => none) =
      .ok (generate_white_noise IMAGE_WIDTH IMAGE_HEIGHT (fun _ _ => 0)
            (fun _ _ _ => 0),
        Function.update (fun _ => none) "noise.jpg"
          (some ⟨"PNG",
            (generate_white_noise IMAGE_WIDTH IMAGE_HEIGHT (fun _ _ => 0)
              (fun _ _ _ => 0)).mode,
            (generate_white_noise IMAGE_WIDTH IMAGE_HEIGHT (fun _ _ => 0)
              (fun _ _ _ => 0)).pixels⟩)))
    ∧ ∃ file,
        Function.update (fun _ => none : Disk) "noise.jpg"
          (some ⟨"PNG",
            (generate_white_noise IMAGE_WIDTH IMAGE_HEIGHT (fun _ _ => 0)
              (fun _ _ _ => 0)).mode,
            (generate_white_noise IMAGE_WIDTH IMAGE_HEIGHT (fun _ _ => 0)
              (fun _ _ _ => 0)).pixels⟩) "noise.jpg" = some file
        ∧ file.format = "PNG"
        ∧ file.pixels = (generate_white_noise IMAGE_WIDTH IMAGE_HEIGHT
            (fun _ _ => 0) (fun _ _ _ => 0)).pixels :=
  ⟨rfl, c5_saved_as_png "noise.jpg" (fun _ _ => 0) (fun _ _ _ => 0)
    (fun _ => none) (fun _ => none) _ _ rfl⟩

end GenTexture

namespace GenTexture

/-- C6: main accepts exactly one positional argument: a usage error
occurs precisely when the argument count is not one, and with one
argument the run is the linear procedure synthesize, encode, save. -/
theorem c6_exactly_one_argument (argv : List String)
    (base : Nat → Nat → Int) (noise : Nat → Nat → Nat → Int)
    (saveCheck : String → Option SaveError) (disk : Disk) :
    ((∃ m, main argv base noise saveCheck disk = .error (.usage m)) ↔
      argv.length ≠ 1)
    ∧ ∀ p, argv = [p] →
        main argv base noise saveCheck disk =
          (match image_save
              (generate_white_noise IMAGE_WIDTH IMAGE_HEIGHT base noise)
              p "PNG" saveCheck disk with
           | .error e => .error (.save e)
           | .ok disk2 =>
              .ok (generate_white_noise IMAGE_WIDTH IMAGE_HEIGHT base noise,
                disk2)) := by
  match argv with
  | [] =>
    refine ⟨iff_of_true ⟨_, rfl⟩ (by simp), ?_⟩
    intro p hp
    exact absurd hp (by simp)
  | [a] =>
    refine ⟨iff_of_false ?_ (by simp), ?_⟩
    · rintro ⟨m, hm⟩
      cases hsc : saveCheck a <;>
        simp [main, parse_args, image_save, hsc] at hm
    · intro p hp
      obtain rfl : a = p := by injection hp
      rfl
  | a :: b :: t =>
    refine ⟨iff_of_true ⟨_, rfl⟩ (by simp), ?_⟩
    intro p hp
    exact absurd hp (by simp)

/-- Witness for C6 at a concrete one-argument command line. -/
theorem c6_witness :
    ((["w.png"] : List String) = ["w.png"])
    ∧ main ["w.png"] (fun _ _ => 0) (fun _ _ _ => 0) (fun _ => none)
        (fun _ => none) =
        (match image_save
            (generate_white_noise IMAGE_WIDTH IMAGE_HEIGHT (fun _ _ => 0)
              (fun _ _ _ => 0))
            "w.png" "PNG" (fun _ => none) (fun _ => none) with
         | .error e => .error (.save e)
         | .ok disk2 =>
            .ok (generate_white_noise IMAGE_WIDTH IMAGE_HEIGHT
              (fun _ _ => 0) (fun _ _ _ => 0), disk2)) :=
  ⟨rfl, (c6_exactly_one_argument ["w.png"] (fun _ _ => 0) (fun _ _ _ => 0)
    (fun _ => none) (fun _ => none)).2 "w.png" rfl⟩

/-- C7: after parsing, the only failure source is the library's save
call: pixel generation never fails, the run succeeds exactly when the
save oracle accepts the path, and the program adds no path validation of
its own: it fails with exactly the library's error otherwise. -/
theorem c7_failures_only_from_save (p : String)
    (base : Nat → Nat → Int) (noise : Nat → Nat → Nat → Int)
    (saveCheck : String → Option SaveError) (disk : Disk) :
    (saveCheck p = none →
      main [p] base noise saveCheck disk =
        .ok (generate_white_noise IMAGE_WIDTH IMAGE_HEIGHT base noise,
          Function.update disk p
            (some ⟨"PNG",
              (generate_white_noise IMAGE_WIDTH IMAGE_HEIGHT base noise).mode,
              (generate_white_noise IMAGE_WIDTH IMAGE_HEIGHT
                base noise).pixels⟩)))
    ∧ ∀ e, saveCheck p = some e →
        main [p] base noise saveCheck disk = .error (.save e) := by
  constructor
  · intro h
    simp [main, parse_args, image_save, h]
  · intro e h
    simp [main, parse_args, image_save, h]

/-- Witness for C7: one run with an accepting oracle, one with a
rejecting oracle. -/
theorem c7_witness :
    ((fun _ : String => (none : Option SaveError)) "q.png" = none)
    ∧ main ["q.png"] (fun _ _ => 9) (fun _ _ _ => 1) (fun _ => none)
        (fun _ => none) =
        .ok (generate_white_noise IMAGE_WIDTH IMAGE_HEIGHT (fun _ _ => 9)
            (fun _ _ _ => 1),
          Function.update (fun _ => none) "q.png"
            (some ⟨"PNG",
              (generate_white_noise IMAGE_WIDTH IMAGE_HEIGHT (fun _ _ => 9)
                (fun _ _ _ => 1)).mode,
              (generate_white_noise IMAGE_WIDTH IMAGE_HEIGHT (fun _ _ => 9)
                (fun _ _ _ => 1)).pixels⟩))
    ∧ ((fun _ : String => some SaveError.invalidPath) "q.png" =
        some SaveError.invalidPath)
    ∧ main ["q.png"] (fun _ _ => 9) (fun _ _ _ => 1)
        (fun _ => some SaveError.invalidPath) (fun _ => none) =
        .error (.save SaveError.invalidPath) :=
  ⟨rfl,
    (c7_failures_only_from_save "q.png" (fun _ _ => 9) (fun _ _ _ => 1)
      (fun _ => none) (fun _ => none)).1 rfl,
    rfl,
    (c7_failures_only_from_save "q.png" (fun _ _ => 9) (fun _ _ _ => 1)
      (fun _ => some SaveError.invalidPath) (fun _ => none)).2
      SaveError.invalidPath rfl⟩

/-- C8: a run's only durable effect is the named output file: on a
successful run, every path on disk other than the output path keeps
exactly its previous content. -/
theorem c8_only_output_path_changed (p q : String)
    (base : Nat → Nat → Int) (noise : Nat → Nat → Nat → Int)
    (saveCheck : String → Option SaveError) (disk : Disk)
    (img : PILImage) (disk2 : Disk)
    (h : main [p] base noise saveCheck disk = .ok (img, disk2))
    (hq : q ≠ p) :
    disk2 q = disk q := by
  obtain ⟨r, hr, -, -, rfl⟩ := main_ok_inv [p] base noise saveCheck disk img disk2 h
  obtain rfl : p = r := by injection hr
  exact Function.update_noteq hq _ disk

/-- Witness for C8 at a concrete run and a concrete unrelated path. -/
theorem c8_witness :
    (main ["out.png"] (fun _ _ => 0) (fun _ _ _ => 0) (fun _ => none)
        (fun _ => none) =
      .ok (generate_white_noise IMAGE_WIDTH IMAGE_HEIGHT (fun _ _ => 0)
            (fun _ _ _ => 0),
        Function.update (fun _ => none) "out.png"
          (some ⟨"PNG",
            (generate_white_noise IMAGE_WIDTH IMAGE_HEIGHT (fun _ _ => 0)
              (fun _ _ _ => 0)).mode,
            (generate_white_noise IMAGE_WIDTH IMAGE_HEIGHT (fun _ _ => 0)
              (fun _ _ _ => 0)).pixels⟩)))
    ∧ ("other.txt" ≠ "out.png")
    ∧ Function.update (fun _ => none : Disk) "out.png"
        (some ⟨"PNG",
          (generate_white_noise IMAGE_WIDTH IMAGE_HEIGHT (fun _ _ => 0)
            (fun _ _ _ => 0)).mode,
          (generate_white_noise IMAGE_WIDTH IMAGE_HEIGHT (fun _ _ => 0)
            (fun _ _ _ => 0)).pixels⟩) "other.txt" =
        (fun _ => none : Disk) "other.txt" :=
  ⟨rfl, by decide,
    c8_only_output_path_changed "out.png" "other.txt" (fun _ _ => 0)
      (fun _ _ _ => 0) (fun _ => none) (fun _ => none) _ _ rfl (by decide)⟩

/-- C9: channels of one pixel stay within 47 of each other: all three
derive from the same base value, each secondary perturbation lies in
[-24, 23], and clipping does not increase a difference. -/
theorem c9_channels_within_47 (base : Nat → Nat → Int)
    (noise : Nat → Nat → Nat → Int) (hn : channel_noise_valid noise)
    (y x c c' : Nat) :
    |img_array_entry base noise y x c - img_array_entry base noise y x c'| ≤ 47 := by
  have h1 := hn y x c
  have h2 := hn y x c'
  unfold CHANNEL_NOISE at h1 h2
  rw [abs_le]
  unfold img_array_entry astype_uint8 np_clip np_stack3
  constructor <;> omega

/-- Witness for C9 at a concrete pixel. -/
theorem c9_witness :
    channel_noise_valid (fun _ _ c => if c = 0 then -24 else 23)
    ∧ |img_array_entry (fun _ _ => 100)
          (fun _ _ c => if c = 0 then -24 else 23) 0 0 0 -
        img_array_entry (fun _ _ => 100)
          (fun _ _ c => if c = 0 then -24 else 23) 0 0 1| ≤ 47 :=
  ⟨fun _ _ c => by
      by_cases hc : c = 0 <;> simp [hc, CHANNEL_NOISE],
    c9_channels_within_47 (fun _ _ => 100)
      (fun _ _ c => if c = 0 then -24 else 23)
      (fun _ _ c => by
        by_cases hc : c = 0 <;> simp [hc, CHANNEL_NOISE])
      0 0 0 1⟩

/-- C10: the base field lies in the inclusive range [0, 255], the
secondary noise in the asymmetric inclusive range [-24, 23], and hence
each stacked channel is perturbed by at least -24 and at most +23 before
clipping. -/
theorem c10_draw_ranges (base : Nat → Nat → Int)
    (noise : Nat → Nat → Nat → Int) (hb : base_noise_valid base)
    (hn : channel_noise_valid noise) (y x c : Nat) :
    (0 ≤ base y x ∧ base y x ≤ 255)
    ∧ (-24 ≤ noise y x c ∧ noise y x c ≤ 23)
    ∧ (base y x - 24 ≤ np_stack3 base y x c + noise y x c
       ∧ np_stack3 base y x c + noise y x c ≤ base y x + 23) := by
  have h1 := hb y x
  have h2 := hn y x c
  unfold CHANNEL_NOISE at h2
  unfold np_stack3
  refine ⟨⟨h1.1, by omega⟩, ⟨by omega, by omega⟩, by omega, by omega⟩

/-- Witness for C10 at concrete draws taking the extreme values. -/
theorem c10_witness :
    base_noise_valid (fun _ _ => 255)
    ∧ channel_noise_valid (fun _ _ _ => -24)
    ∧ ((0 ≤ (fun _ _ => (255 : Int)) 0 0 ∧ (fun _ _ => (255 : Int)) 0 0 ≤ 255)
      ∧ (-24 ≤ (fun _ _ _ => (-24 : Int)) 0 0 0
         ∧ (fun _ _ _ => (-24 : Int)) 0 0 0 ≤ 23)
      ∧ ((fun _ _ => (255 : Int)) 0 0 - 24 ≤
            np_stack3 (fun _ _ => 255) 0 0 0 + (fun _ _ _ => (-24 : Int)) 0 0 0
         ∧ np_stack3 (fun _ _ => 255) 0 0 0 + (fun _ _ _ => (-24 : Int)) 0 0 0 ≤
            (fun _ _ => (255 : Int)) 0 0 + 23)) :=
  by
  have hb : base_noise_valid (fun _ _ => 255) := fun _ _ => by norm_num
  have hn : channel_noise_valid (fun _ _ _ => -24) := fun _ _ _ => by
    norm_num [CHANNEL_NOISE]
  exact ⟨hb, hn, c10_draw_ranges (fun _ _ => 255) (fun _ _ _ => -24) hb hn 0 0 0⟩

end GenTexture
